import Mathlib

/-!
Shallow embedding of the brandnew server (src/server/server.js), its Mongoose
user model (models/User.js) and the relevant client logic
(src/client/src/App.jsx), together with proofs about the spec claims.

Dates are modelled as epoch milliseconds (Int); a `null` date or string is an
`Option`.  A Mongoose `save()` is modelled as replacing the document with the
same `auth0Id` in a list of user records, and the number of `save()` calls a
handler performs is returned explicitly where a claim is about writes.
-/

namespace BrandNew

/-- A User document, with the fields server.js reads and writes. -/
structure UserRec where
  auth0Id : String
  planStatus : String
  trialEndsAt : Option Int
  stripeCustomerId : Option String
  stripeSubscriptionId : Option String
  threadCount : Nat
deriving DecidableEq, Repr

/-- Outcome of the `checkUserPlan` middleware: either pass control to the
next handler (allow), or send a 403 JSON body with an error message and a
`planStatus` field (deny). -/
inductive PlanDecision where
  | allow
  | deny (error : String) (planStatus : String)
deriving DecidableEq, Repr

/-- The middleware result together with the (possibly updated) user record and
the number of `user.save()` calls performed. -/
structure PlanCheckOutcome where
  decision : PlanDecision
  user : UserRec
  saves : Nat
deriving DecidableEq, Repr

/-- Embedding of the `checkUserPlan` middleware (server.js lines 233-272).
`now` is `new Date()` in epoch milliseconds. -/
def checkUserPlan (user : UserRec) (now : Int) : PlanCheckOutcome :=
  if user.planStatus = "trial" then
    match user.trialEndsAt with
    | some t =>
      if now > t then
        let saved : UserRec × Nat :=
          if user.planStatus ≠ "expired" then
            ({ user with planStatus := "expired" }, 1)
          else (user, 0)
        { decision := .deny "Your trial has expired. Please upgrade to a premium plan." "expired"
          user := saved.1
          saves := saved.2 }
      else
        { decision := .allow, user := user, saves := 0 }
    | none =>
      { decision := .allow, user := user, saves := 0 }
  else if user.planStatus = "premium" then
    { decision := .allow, user := user, saves := 0 }
  else if user.planStatus = "expired" then
    { decision := .deny "Your plan has expired. Please upgrade to a premium plan to continue." "expired"
      user := user
      saves := 0 }
  else
    { decision := .deny "Access denied due to unknown plan status. Please contact support." "unknown"
      user := user
      saves := 0 }

/-- Stripe webhook events as dispatched by the switch in server.js lines
114-190.  Subscription events carry the customer id, the subscription id, the
provider status string, and (for `trialing`) the `trial_end` timestamp in
epoch seconds.  Invoice events carry the customer id and the invoice id. -/
inductive StripeEvent where
  | subscriptionCreated (customer subId subStatus : String) (trial_end : Int)
  | subscriptionUpdated (customer subId subStatus : String) (trial_end : Int)
  | subscriptionDeleted (customer subId : String)
  | invoicePaid (customer invoiceId : String)
  | invoicePaymentFailed (customer invoiceId : String)
  | otherEvent (eventType : String)
deriving DecidableEq, Repr

/-- Embedding of `User.findOne({ stripeCustomerId: customerId })`: the first
record in the collection whose customer reference matches. -/
def findOneByCustomer (db : List UserRec) (customerId : String) : Option UserRec :=
  db.find? (fun u => decide (u.stripeCustomerId = some customerId))

/-- Embedding of `user.save()`: the document with the same `auth0Id` is
replaced by the updated record. -/
def saveUser (db : List UserRec) (u : UserRec) : List UserRec :=
  db.map (fun v => if v.auth0Id = u.auth0Id then u else v)

/-- Embedding of the body of the `customer.subscription.created|updated`
webhook branch (server.js lines 124-138): the status table computed with
`let planStatus = 'expired'; let trialEndsAt = null;` followed by the
if/else-if chain, then the three assignments onto the user document. -/
def applySubscriptionUpdate (u : UserRec) (subId subStatus : String) (trial_end : Int) : UserRec :=
  let pt : String × Option Int :=
    if subStatus = "active" then ("premium", none)
    else if subStatus = "trialing" then ("trial", some (trial_end * 1000))
    else if subStatus = "past_due" ∨ subStatus = "canceled" ∨ subStatus = "unpaid" then
      ("expired", none)
    else ("expired", none)
  { u with planStatus := pt.1, trialEndsAt := pt.2, stripeSubscriptionId := some subId }

/-- The look-up/update/save pattern every mutating webhook branch uses:
find the user by Stripe customer id; if found, apply the update and save;
if not found, log and no-op. -/
def reconcileCustomer (db : List UserRec) (customerId : String) (f : UserRec → UserRec) :
    List UserRec :=
  match findOneByCustomer db customerId with
  | some u => saveUser db (f u)
  | none => db

/-- HTTP response of the webhook endpoint: `400` with a text body on
signature-verification failure, otherwise `res.json({received: true})`. -/
inductive WebhookResponse where
  | badSignatureError
  | received
deriving DecidableEq, Repr

/-- Embedding of `app.post('/api/webhook')` (server.js lines 98-193).
`verified` is the outcome of `stripe.webhooks.constructEvent`: when it
throws, the endpoint returns 400 and nothing else runs.  Otherwise the event
is dispatched and the endpoint always answers `{received: true}`. -/
def handleWebhook (verified : Bool) (ev : StripeEvent) (db : List UserRec) :
    List UserRec × WebhookResponse :=
  if verified then
    let db2 :=
      match ev with
      | .subscriptionCreated c sid st te | .subscriptionUpdated c sid st te =>
          reconcileCustomer db c (fun u => applySubscriptionUpdate u sid st te)
      | .subscriptionDeleted c _ =>
          reconcileCustomer db c
            (fun u => { u with planStatus := "expired", stripeSubscriptionId := none,
                               trialEndsAt := none })
      | .invoicePaid _ _ => db
      | .invoicePaymentFailed c _ =>
          reconcileCustomer db c (fun u => { u with planStatus := "expired" })
      | .otherEvent _ => db
    (db2, .received)
  else
    (db, .badSignatureError)

/-- The JSON body of `GET /api/user-status` (server.js lines 279-285),
modelled as the list of key/value pairs passed to `res.status(200).json`. -/
inductive JsonVal where
  | jstr (s : String)
  | jnum (n : Int)
  | jnull
deriving DecidableEq, Repr

/-- Embedding of the `/api/user-status` response body. -/
def userStatusBody (u : UserRec) : List (String × JsonVal) :=
  [ ("planStatus", .jstr u.planStatus)
  , ("trialEndsAt", match u.trialEndsAt with | some t => .jnum t | none => .jnull) ]

/-- One tool call from `run.required_action.submit_tool_outputs.tool_calls`. -/
structure ToolCall where
  id : String
  name : String
  arguments : String
deriving DecidableEq, Repr

/-- One element of the `tool_outputs` array submitted back to the provider. -/
structure ToolOutput where
  tool_call_id : String
  output : String
deriving DecidableEq, Repr

/-- `JSON.stringify({ temperature: 22, unit: "celsius", description: "Sunny" })`. -/
def weatherOutput : String :=
  "\x7b\"temperature\":22,\"unit\":\"celsius\",\"description\":\"Sunny\"\x7d"

/-- The per-tool-call output synthesis inside the `requires_action` branch
(server.js lines 510-516): start from the dummy output, override for
`get_current_weather` and `get_time`.  `timeStr` is the ambient
`new Date().toLocaleTimeString()`. -/
def toolOutputFor (timeStr : String) (name : String) : String :=
  let output := "Tool function executed successfully with dummy output."
  if name = "get_current_weather" then weatherOutput
  else if name = "get_time" then timeStr
  else output

/-- The whole `toolOutputs` batch built by the `map` over the run tool
calls (server.js lines 508-522): one output per call, paired with its id. -/
def buildToolOutputs (timeStr : String) (calls : List ToolCall) : List ToolOutput :=
  calls.map (fun tc => { tool_call_id := tc.id, output := toolOutputFor timeStr tc.name })

/-- A run object as returned by the provider: its status string, the tool
calls when `required_action` is present, and `last_error` as an optional
(message, code) pair. -/
structure RunState where
  id : String
  thread_id : String
  status : String
  required_action : Option (List ToolCall)
  last_error : Option (String × String)
deriving DecidableEq, Repr

/-- Embedding of the polling `while` loop (server.js lines 485-543).  The
provider is modelled by `script`, the sequence of run objects its successive
responses return (each poll and each submit-tool-outputs response consumes
the next element).  The result is the list of submitted tool-output batches
in order together with the run the loop exits with; `none` means the script
ran out while the loop still wanted to poll. -/
def runPollLoop (timeStr : String) (script : List RunState) (run : RunState)
    (acc : List (List ToolOutput)) : Option (List (List ToolOutput) × RunState) :=
  if run.status = "queued" ∨ run.status = "in_progress" ∨ run.status = "requires_action" then
    match script with
    | [] => none
    | polled :: rest =>
      if polled.status = "requires_action" then
        match polled.required_action with
        | some calls =>
          match rest with
          | [] => none
          | afterSubmit :: rest2 =>
              runPollLoop timeStr rest2 afterSubmit (acc ++ [buildToolOutputs timeStr calls])
        | none => runPollLoop timeStr rest polled acc
      else runPollLoop timeStr rest polled acc
  else
    some (acc, run)

/-- A message from the thread list, flattened to the fields the endpoint
reads: `role`, `run_id`, `content[0].type` and `content[0].text.value`. -/
structure ChatMessage where
  role : String
  run_id : String
  contentType : String
  text : String
deriving DecidableEq, Repr

/-- Result of the `/api/chat` endpoint after the polling loop exits:
a 500 JSON error for a failed run, or a 200 JSON response (either the
selected assistant text or the fallback notice). -/
inductive ChatResult where
  | errorFailed (details : String) (code : String)
  | response (text : String)
  | noResponse
deriving DecidableEq, Repr

/-- HTTP status code the three `ChatResult` outcomes are sent with. -/
def chatHttpStatus : ChatResult → Nat
  | .errorFailed _ _ => 500
  | .response _ => 200
  | .noResponse => 200

/-- Embedding of the terminal handling after the loop (server.js lines
545-582): `failed` produces the 500 error from `last_error`; any other exit
status falls through to listing the thread messages (`messages` is the list
as returned by the provider, newest first) and `find`-ing the first
assistant-authored, text-typed message of this run. -/
def finishRun (run : RunState) (messages : List ChatMessage) : ChatResult :=
  if run.status = "failed" then
    .errorFailed
      (match run.last_error with | some e => e.1 | none => "Unknown failure")
      (match run.last_error with | some e => e.2 | none => "UNKNOWN_FAILURE")
  else
    match messages.find?
        (fun m => decide (m.role = "assistant") && decide (m.run_id = run.id)
          && decide (m.contentType = "text")) with
    | some m => .response m.text
    | none => .noResponse

/-- The client state `createNewThread` (App.jsx lines 95-140) reads before
deciding whether to call `/api/new-thread`.  `userPlan = none` is the initial
`null`; the strings `loading` and `error` are the sentinel values the client
stores there. -/
structure ClientState where
  isAuthenticated : Bool
  threadId : Option String
  chatLoading : Bool
  userPlan : Option String
  trialDaysRemaining : Option Int
  threadCount : Nat
deriving DecidableEq, Repr

/-- What the client does on a new-thread attempt: silently skip, defer while
the plan is loading, stop with the thread-limit error, or actually issue the
POST to `/api/new-thread`. -/
inductive ThreadAction where
  | skipCreation
  | deferWhileLoading
  | limitError (message : String)
  | sendRequest
deriving DecidableEq, Repr

/-- `userPlan === 'trial' && trialDaysRemaining !== null && trialDaysRemaining <= 0`,
the last disjunct of the skip guard. -/
def trialExhausted (td : Option Int) : Bool :=
  match td with
  | some d => decide (d ≤ 0)
  | none => false

/-- Embedding of the guard sequence of `createNewThread` (App.jsx):
the skip guard, the loading guard, then the trial thread-limit check
(`userPlan === 'trial' && threadCount >= 10`), and otherwise the fetch. -/
def createNewThread (s : ClientState) : ThreadAction :=
  if ¬ s.isAuthenticated ∨ s.threadId.isSome ∨ s.chatLoading
      ∨ s.userPlan = none ∨ s.userPlan = some "error" ∨ s.userPlan = some "expired"
      ∨ (s.userPlan = some "trial" ∧ trialExhausted s.trialDaysRemaining) then
    .skipCreation
  else if s.userPlan = some "loading" then
    .deferWhileLoading
  else if s.userPlan = some "trial" ∧ s.threadCount ≥ 10 then
    .limitError "You have reached your thread limit of 10. Please upgrade your plan."
  else
    .sendRequest

/-! ## Theorems about the claims -/

/-- C1: the plan access check.  `premium` allows; `trial` with `now ≤
trialEndsAt` allows; `trial` with `now > trialEndsAt` transitions the record
to `expired`, saves exactly once, and denies with the trial-expired reason,
and a second check on the resulting record performs no write; `expired`
denies with the plan-expired reason and no write; any other plan status
denies with the unknown-plan-status reason and no write (fail-closed). -/
theorem checkUserPlan_contract (u : UserRec) (now : Int) :
    (u.planStatus = "premium" →
      checkUserPlan u now = { decision := .allow, user := u, saves := 0 }) ∧
    (∀ t, u.planStatus = "trial" → u.trialEndsAt = some t → now ≤ t →
      checkUserPlan u now = { decision := .allow, user := u, saves := 0 }) ∧
    (∀ t, u.planStatus = "trial" → u.trialEndsAt = some t → now > t →
      checkUserPlan u now =
        { decision := .deny "Your trial has expired. Please upgrade to a premium plan." "expired"
          user := { u with planStatus := "expired" }
          saves := 1 } ∧
      (checkUserPlan (checkUserPlan u now).user now).saves = 0 ∧
      (checkUserPlan (checkUserPlan u now).user now).decision =
        .deny "Your plan has expired. Please upgrade to a premium plan to continue." "expired") ∧
    (u.planStatus = "expired" →
      checkUserPlan u now =
        { decision := .deny "Your plan has expired. Please upgrade to a premium plan to continue."
            "expired"
          user := u
          saves := 0 }) ∧
    (u.planStatus ≠ "trial" → u.planStatus ≠ "premium" → u.planStatus ≠ "expired" →
      checkUserPlan u now =
        { decision := .deny "Access denied due to unknown plan status. Please contact support."
            "unknown"
          user := u
          saves := 0 }) := by
  refine ⟨?_, ?_, ?_, ?_, ?_⟩
  · intro h
    simp [checkUserPlan, h]
  · intro t h ht hle
    simp [checkUserPlan, h, ht, not_lt.mpr hle]
  · intro t h ht hgt
    have h1 : checkUserPlan u now =
        { decision := .deny "Your trial has expired. Please upgrade to a premium plan." "expired"
          user := { u with planStatus := "expired" }
          saves := 1 } := by
      simp [checkUserPlan, h, ht, hgt]
    refine ⟨h1, ?_, ?_⟩ <;> rw [h1] <;> simp [checkUserPlan]
  · intro h
    simp [checkUserPlan, h]
  · intro h1 h2 h3
    simp [checkUserPlan, h1, h2, h3]

/-- Witness for C1: a trial user whose trial ended at time 100, checked at
time 200, is denied with the trial-expired message and saved exactly once. -/
theorem checkUserPlan_contract_witness :
    checkUserPlan
        { auth0Id := "auth0|w1", planStatus := "trial", trialEndsAt := some 100,
          stripeCustomerId := none, stripeSubscriptionId := none, threadCount := 0 } 200 =
      { decision := .deny "Your trial has expired. Please upgrade to a premium plan." "expired"
        user := { auth0Id := "auth0|w1", planStatus := "expired", trialEndsAt := some 100,
                  stripeCustomerId := none, stripeSubscriptionId := none, threadCount := 0 }
        saves := 1 } :=
  ((checkUserPlan_contract
      { auth0Id := "auth0|w1", planStatus := "trial", trialEndsAt := some 100,
        stripeCustomerId := none, stripeSubscriptionId := none, threadCount := 0 }
      200).2.2.1 100 rfl rfl (by decide)).1

/-- C10: a `trial` record with a null `trialEndsAt` is allowed through with
no write: the null deadline behaves as a never-expiring trial. -/
theorem checkUserPlan_nullTrialEnd (u : UserRec) (now : Int)
    (h : u.planStatus = "trial") (ht : u.trialEndsAt = none) :
    checkUserPlan u now = { decision := .allow, user := u, saves := 0 } := by
  simp [checkUserPlan, h, ht]

/-- Witness for C10: a concrete trial user with no trial deadline is allowed. -/
theorem checkUserPlan_nullTrialEnd_witness :
    checkUserPlan
        { auth0Id := "auth0|w10", planStatus := "trial", trialEndsAt := none,
          stripeCustomerId := none, stripeSubscriptionId := none, threadCount := 0 } 200 =
      { decision := .allow
        user := { auth0Id := "auth0|w10", planStatus := "trial", trialEndsAt := none,
                  stripeCustomerId := none, stripeSubscriptionId := none, threadCount := 0 }
        saves := 0 } :=
  checkUserPlan_nullTrialEnd _ 200 rfl rfl

/-- C2: the subscription-created/updated reconciler.  When the customer
resolves to a user, both event types save `applySubscriptionUpdate` of that
user, whose plan status follows the table (`active` → `premium`, `trialing`
→ `trial` with `trialEndsAt` from the provider trial-end timestamp,
`past_due`/`canceled`/`unpaid` → `expired`, anything else → `expired`), and
whose subscription reference is set to the event's subscription id in every
case. -/
theorem webhook_subscription_mapping (db : List UserRec) (c sid st : String) (te : Int)
    (u : UserRec) (h : findOneByCustomer db c = some u) :
    (handleWebhook true (.subscriptionUpdated c sid st te) db).1 =
        saveUser db (applySubscriptionUpdate u sid st te) ∧
    (handleWebhook true (.subscriptionCreated c sid st te) db).1 =
        saveUser db (applySubscriptionUpdate u sid st te) ∧
    (applySubscriptionUpdate u sid st te).stripeSubscriptionId = some sid ∧
    (st = "active" → (applySubscriptionUpdate u sid st te).planStatus = "premium" ∧
        (applySubscriptionUpdate u sid st te).trialEndsAt = none) ∧
    (st = "trialing" → (applySubscriptionUpdate u sid st te).planStatus = "trial" ∧
        (applySubscriptionUpdate u sid st te).trialEndsAt = some (te * 1000)) ∧
    (st = "past_due" ∨ st = "canceled" ∨ st = "unpaid" →
        (applySubscriptionUpdate u sid st te).planStatus = "expired") ∧
    (st ≠ "active" → st ≠ "trialing" →
        (applySubscriptionUpdate u sid st te).planStatus = "expired") := by
  refine ⟨?_, ?_, ?_, ?_, ?_, ?_, ?_⟩
  · simp [handleWebhook, reconcileCustomer, h]
  · simp [handleWebhook, reconcileCustomer, h]
  · simp [applySubscriptionUpdate]
  · intro hst; subst hst; simp [applySubscriptionUpdate]
  · intro hst; subst hst; simp [applySubscriptionUpdate]
  · rintro (hst | hst | hst) <;> subst hst <;> simp [applySubscriptionUpdate]
  · intro h1 h2
    by_cases h3 : st = "past_due" ∨ st = "canceled" ∨ st = "unpaid" <;>
      simp [applySubscriptionUpdate, h1, h2, h3]

/-- Witness for C2: a database holding one user with customer id `cus_w2`,
receiving an `active` subscription update. -/
theorem webhook_subscription_mapping_witness :
    (handleWebhook true (.subscriptionUpdated "cus_w2" "sub_w2" "active" 0)
        [{ auth0Id := "auth0|w2", planStatus := "trial", trialEndsAt := some 100,
           stripeCustomerId := some "cus_w2", stripeSubscriptionId := none,
           threadCount := 0 }]).1 =
      saveUser
        [{ auth0Id := "auth0|w2", planStatus := "trial", trialEndsAt := some 100,
           stripeCustomerId := some "cus_w2", stripeSubscriptionId := none,
           threadCount := 0 }]
        (applySubscriptionUpdate
          { auth0Id := "auth0|w2", planStatus := "trial", trialEndsAt := some 100,
            stripeCustomerId := some "cus_w2", stripeSubscriptionId := none,
            threadCount := 0 } "sub_w2" "active" 0) :=
  (webhook_subscription_mapping
    [{ auth0Id := "auth0|w2", planStatus := "trial", trialEndsAt := some 100,
       stripeCustomerId := some "cus_w2", stripeSubscriptionId := none, threadCount := 0 }]
    "cus_w2" "sub_w2" "active" 0
    { auth0Id := "auth0|w2", planStatus := "trial", trialEndsAt := some 100,
      stripeCustomerId := some "cus_w2", stripeSubscriptionId := none, threadCount := 0 }
    (by decide)).1

/-- C8: an `invoice.payment_failed` event whose customer resolves to a user
saves that user with `planStatus = "expired"`, whatever the prior plan
status was, leaving the trial deadline and the rest of the record alone. -/
theorem webhook_payment_failed_expires (db : List UserRec) (c iid : String)
    (u : UserRec) (h : findOneByCustomer db c = some u) :
    (handleWebhook true (.invoicePaymentFailed c iid) db).1 =
        saveUser db { u with planStatus := "expired" } ∧
    ({ u with planStatus := "expired" } : UserRec).planStatus = "expired" ∧
    ({ u with planStatus := "expired" } : UserRec).trialEndsAt = u.trialEndsAt ∧
    ({ u with planStatus := "expired" } : UserRec).stripeSubscriptionId =
      u.stripeSubscriptionId := by
  refine ⟨?_, rfl, rfl, rfl⟩
  simp [handleWebhook, reconcileCustomer, h]

/-- Witness for C8: a premium user with a live trial date becomes expired on
a failed invoice payment. -/
theorem webhook_payment_failed_expires_witness :
    (handleWebhook true (.invoicePaymentFailed "cus_w8" "in_w8")
        [{ auth0Id := "auth0|w8", planStatus := "premium", trialEndsAt := some 999,
           stripeCustomerId := some "cus_w8", stripeSubscriptionId := some "sub_w8",
           threadCount := 0 }]).1 =
      saveUser
        [{ auth0Id := "auth0|w8", planStatus := "premium", trialEndsAt := some 999,
           stripeCustomerId := some "cus_w8", stripeSubscriptionId := some "sub_w8",
           threadCount := 0 }]
        { auth0Id := "auth0|w8", planStatus := "expired", trialEndsAt := some 999,
          stripeCustomerId := some "cus_w8", stripeSubscriptionId := some "sub_w8",
          threadCount := 0 } :=
  (webhook_payment_failed_expires
    [{ auth0Id := "auth0|w8", planStatus := "premium", trialEndsAt := some 999,
       stripeCustomerId := some "cus_w8", stripeSubscriptionId := some "sub_w8",
       threadCount := 0 }]
    "cus_w8" "in_w8"
    { auth0Id := "auth0|w8", planStatus := "premium", trialEndsAt := some 999,
      stripeCustomerId := some "cus_w8", stripeSubscriptionId := some "sub_w8",
      threadCount := 0 }
    (by decide)).1

/-- C6: every event that passes signature verification is answered with
`{received: true}`, including when the customer matches no user (the four
customer-bearing event shapes leave the database untouched then) and when
the event type is unrecognized; a delivery failing signature verification
gets the 400 response and the database is untouched. -/
theorem webhook_ack_contract (ev : StripeEvent) (db : List UserRec) :
    (handleWebhook true ev db).2 = .received ∧
    handleWebhook false ev db = (db, .badSignatureError) ∧
    (∀ t, handleWebhook true (.otherEvent t) db = (db, .received)) ∧
    (∀ c sid st te, findOneByCustomer db c = none →
      (handleWebhook true (.subscriptionCreated c sid st te) db).1 = db ∧
      (handleWebhook true (.subscriptionUpdated c sid st te) db).1 = db ∧
      (handleWebhook true (.subscriptionDeleted c sid) db).1 = db) ∧
    (∀ c iid, findOneByCustomer db c = none →
      (handleWebhook true (.invoicePaymentFailed c iid) db).1 = db ∧
      (handleWebhook true (.invoicePaid c iid) db).1 = db) := by
  refine ⟨?_, ?_, ?_, ?_, ?_⟩
  · cases ev <;> simp [handleWebhook]
  · simp [handleWebhook]
  · intro t; simp [handleWebhook]
  · intro c sid st te h
    refine ⟨?_, ?_, ?_⟩ <;> simp [handleWebhook, reconcileCustomer, h]
  · intro c iid h
    refine ⟨?_, ?_⟩ <;> simp [handleWebhook, reconcileCustomer, h]

/-- Witness for C6: a subscription-updated event for a customer id absent
from a one-user database is acknowledged and the database is unchanged. -/
theorem webhook_ack_contract_witness :
    (handleWebhook true (.subscriptionUpdated "cus_missing" "sub_w6" "active" 0)
        [{ auth0Id := "auth0|w6", planStatus := "premium", trialEndsAt := none,
           stripeCustomerId := some "cus_w6", stripeSubscriptionId := none,
           threadCount := 0 }]).1 =
      [{ auth0Id := "auth0|w6", planStatus := "premium", trialEndsAt := none,
         stripeCustomerId := some "cus_w6", stripeSubscriptionId := none,
         threadCount := 0 }] :=
  ((webhook_ack_contract (.subscriptionUpdated "cus_missing" "sub_w6" "active" 0)
      [{ auth0Id := "auth0|w6", planStatus := "premium", trialEndsAt := none,
         stripeCustomerId := some "cus_w6", stripeSubscriptionId := none,
         threadCount := 0 }]).2.2.2.1 "cus_missing" "sub_w6" "active" 0 (by decide)).2.1

/-- A found record carries the customer id it was looked up by. -/
theorem findOneByCustomer_customerId (db : List UserRec) (c : String) (u : UserRec)
    (h : findOneByCustomer db c = some u) : u.stripeCustomerId = some c := by
  have hp := List.find?_some h
  simpa using hp

/-- After saving a record that keeps the found record's `auth0Id` and carries
the looked-up customer id, the look-up returns the saved record. -/
theorem findOneByCustomer_saveUser (db : List UserRec) (c : String) (u w : UserRec)
    (h : findOneByCustomer db c = some u) (haw : w.auth0Id = u.auth0Id)
    (hcw : w.stripeCustomerId = some c) :
    findOneByCustomer (saveUser db w) c = some w := by
  induction db with
  | nil => simp [findOneByCustomer] at h
  | cons v rest ih =>
    by_cases hv : v.stripeCustomerId = some c
    · have hu : v = u := by
        simpa [findOneByCustomer, hv] using h
      have hva : v.auth0Id = w.auth0Id := by rw [haw, hu]
      simp [findOneByCustomer, saveUser, hva, hcw]
    · have hrest : findOneByCustomer rest c = some u := by
        simpa [findOneByCustomer, hv] using h
      by_cases hva : v.auth0Id = w.auth0Id
      · simp [findOneByCustomer, saveUser, hva, hcw]
      · have hih := ih hrest
        simpa [findOneByCustomer, saveUser, hva, hv] using hih

/-- Saving the same record twice is the same as saving it once. -/
theorem saveUser_saveUser (db : List UserRec) (w : UserRec) :
    saveUser (saveUser db w) w = saveUser db w := by
  unfold saveUser
  rw [List.map_map]
  apply List.map_congr_left
  intro v _
  by_cases hva : v.auth0Id = w.auth0Id <;> simp [Function.comp, hva]

/-- The reconcile pattern is idempotent whenever the per-record update is
idempotent and preserves the record's identity and customer reference. -/
theorem reconcileCustomer_idem (db : List UserRec) (c : String) (f : UserRec → UserRec)
    (hf : ∀ v, f (f v) = f v) (ha : ∀ v, (f v).auth0Id = v.auth0Id)
    (hc : ∀ v, (f v).stripeCustomerId = v.stripeCustomerId) :
    reconcileCustomer (reconcileCustomer db c f) c f = reconcileCustomer db c f := by
  cases h : findOneByCustomer db c with
  | none => simp [reconcileCustomer, h]
  | some u =>
    have hu : u.stripeCustomerId = some c := findOneByCustomer_customerId db c u h
    have hfind : findOneByCustomer (saveUser db (f u)) c = some (f u) :=
      findOneByCustomer_saveUser db c u (f u) h (ha u) (by rw [hc u, hu])
    simp [reconcileCustomer, h, hfind, hf u, saveUser_saveUser]

/-- C3: webhook handling is idempotent.  Applying the handler a second time
to the database state produced by the first application leaves the database
(and the response) unchanged, for every event shape — every branch is a
last-write-wins assignment. -/
theorem webhook_idempotent (ev : StripeEvent) (db : List UserRec) :
    handleWebhook true ev (handleWebhook true ev db).1 = handleWebhook true ev db := by
  cases ev with
  | subscriptionCreated c sid st te =>
    simp only [handleWebhook, if_pos rfl]
    exact congrArg (fun d => (d, WebhookResponse.received))
      (reconcileCustomer_idem db c (fun u => applySubscriptionUpdate u sid st te)
        (fun v => by simp [applySubscriptionUpdate])
        (fun v => by simp [applySubscriptionUpdate])
        (fun v => by simp [applySubscriptionUpdate]))
  | subscriptionUpdated c sid st te =>
    simp only [handleWebhook, if_pos rfl]
    exact congrArg (fun d => (d, WebhookResponse.received))
      (reconcileCustomer_idem db c (fun u => applySubscriptionUpdate u sid st te)
        (fun v => by simp [applySubscriptionUpdate])
        (fun v => by simp [applySubscriptionUpdate])
        (fun v => by simp [applySubscriptionUpdate]))
  | subscriptionDeleted c sid =>
    simp only [handleWebhook, if_pos rfl]
    exact congrArg (fun d => (d, WebhookResponse.received))
      (reconcileCustomer_idem db c
        (fun u => { u with planStatus := "expired", stripeSubscriptionId := none,
                           trialEndsAt := none })
        (fun v => rfl) (fun v => rfl) (fun v => rfl))
  | invoicePaid c iid => simp [handleWebhook]
  | invoicePaymentFailed c iid =>
    simp only [handleWebhook, if_pos rfl]
    exact congrArg (fun d => (d, WebhookResponse.received))
      (reconcileCustomer_idem db c (fun u => { u with planStatus := "expired" })
        (fun v => rfl) (fun v => rfl) (fun v => rfl))
  | otherEvent t => simp [handleWebhook]

/-- A run that exits the polling loop as `cancelled`. -/
def cancelledRun : RunState :=
  { id := "run_c4", thread_id := "th_c4", status := "cancelled",
    required_action := none, last_error := none }

/-- C4 counterexample: a run exiting the loop with status `cancelled` is not
surfaced as an error carrying the raw status string — the endpoint falls
through to the message fetch and answers 200 with the fallback body. -/
theorem finishRun_cancelled_not_error :
    finishRun cancelledRun [] = ChatResult.noResponse ∧
    chatHttpStatus (finishRun cancelledRun []) = 200 := by
  constructor <;> rfl

/-- C4 (amended): `failed` surfaces a 500 error whose details and code come
from `last_error` (with the unknown-failure fallbacks when `last_error` is
absent); every other exit status — `completed` or not — falls through to the
message fetch, returning the first (newest-first, hence most recent)
assistant-authored, text-typed message of this run as a 200 response, or the
fallback notice, never an error carrying the status string. -/
theorem chat_terminal_handling (run : RunState) (messages : List ChatMessage) :
    (run.status = "failed" → ∀ m code, run.last_error = some (m, code) →
        finishRun run messages = .errorFailed m code) ∧
    (run.status = "failed" → run.last_error = none →
        finishRun run messages = .errorFailed "Unknown failure" "UNKNOWN_FAILURE") ∧
    (run.status ≠ "failed" → ∀ msg,
        messages.find?
            (fun m => decide (m.role = "assistant") && decide (m.run_id = run.id)
              && decide (m.contentType = "text")) = some msg →
        finishRun run messages = .response msg.text) ∧
    (run.status ≠ "failed" →
        messages.find?
            (fun m => decide (m.role = "assistant") && decide (m.run_id = run.id)
              && decide (m.contentType = "text")) = none →
        finishRun run messages = .noResponse) ∧
    (run.status ≠ "failed" → chatHttpStatus (finishRun run messages) = 200) := by
  refine ⟨?_, ?_, ?_, ?_, ?_⟩
  · intro hs m code he
    simp [finishRun, hs, he]
  · intro hs he
    simp [finishRun, hs, he]
  · intro hs msg hfind
    simp [finishRun, hs, hfind]
  · intro hs hfind
    simp [finishRun, hs, hfind]
  · intro hs
    cases hfind : messages.find?
        (fun m => decide (m.role = "assistant") && decide (m.run_id = run.id)
          && decide (m.contentType = "text")) <;>
      simp [finishRun, hs, hfind, chatHttpStatus]

/-- Witness for C4 (amended): a failed run with a provider error surfaces
that error message and code. -/
theorem chat_terminal_handling_witness :
    finishRun
        { id := "run_w4", thread_id := "th_w4", status := "failed",
          required_action := none,
          last_error := some ("rate limit exceeded", "rate_limit_exceeded") } [] =
      .errorFailed "rate limit exceeded" "rate_limit_exceeded" :=
  (chat_terminal_handling
      { id := "run_w4", thread_id := "th_w4", status := "failed",
        required_action := none,
        last_error := some ("rate limit exceeded", "rate_limit_exceeded") } []).1
    rfl "rate limit exceeded" "rate_limit_exceeded" rfl

/-- C5: tool-call handling.  The batch built for a `requires_action` poll
has exactly one output per tool call, paired positionally with the call ids;
unrecognized tool names get the stub output; a run observed with two tool
calls submits exactly those two outputs in one batch and then sees the next
poll; and two `requires_action` cycles in one run produce exactly two
single-batch submissions. -/
theorem chat_tool_outputs_batching (timeStr : String) :
    (∀ calls : List ToolCall,
        (buildToolOutputs timeStr calls).map (fun o => o.tool_call_id) =
          calls.map (fun tc => tc.id) ∧
        (buildToolOutputs timeStr calls).length = calls.length) ∧
    (∀ tc : ToolCall, tc.name ≠ "get_current_weather" → tc.name ≠ "get_time" →
        toolOutputFor timeStr tc.name =
          "Tool function executed successfully with dummy output.") ∧
    (∀ (start ra fin : RunState) (c1 c2 : ToolCall),
        start.status = "queued" →
        ra.status = "requires_action" → ra.required_action = some [c1, c2] →
        fin.status = "completed" →
        runPollLoop timeStr [ra, fin] start [] =
          some ([buildToolOutputs timeStr [c1, c2]], fin) ∧
        (buildToolOutputs timeStr [c1, c2]).length = 2) ∧
    (∀ (start ra1 mid ra2 fin : RunState) (calls1 calls2 : List ToolCall),
        start.status = "queued" →
        ra1.status = "requires_action" → ra1.required_action = some calls1 →
        mid.status = "in_progress" →
        ra2.status = "requires_action" → ra2.required_action = some calls2 →
        fin.status = "completed" →
        runPollLoop timeStr [ra1, mid, ra2, fin] start [] =
          some ([buildToolOutputs timeStr calls1, buildToolOutputs timeStr calls2], fin)) := by
  refine ⟨?_, ?_, ?_, ?_⟩
  · intro calls
    constructor
    · simp [buildToolOutputs]
    · simp [buildToolOutputs]
  · intro tc h1 h2
    simp [toolOutputFor, h1, h2]
  · intro start ra fin c1 c2 hs hra hcalls hfin
    constructor
    · simp [runPollLoop, hs, hra, hcalls, hfin]
    · simp [buildToolOutputs]
  · intro start ra1 mid ra2 fin calls1 calls2 hs hra1 hcalls1 hmid hra2 hcalls2 hfin
    simp [runPollLoop, hs, hra1, hcalls1, hmid, hra2, hcalls2, hfin]

/-- Witness for C5: a queued run, one `requires_action` poll carrying a
weather call and an unknown call, then completion: exactly one batch of two
outputs. -/
theorem chat_tool_outputs_batching_witness :
    runPollLoop "10:00:00 AM"
        [ { id := "run_w5", thread_id := "th_w5", status := "requires_action",
            required_action := some
              [ { id := "call_a", name := "get_current_weather", arguments := "\x7b\x7d" }
              , { id := "call_b", name := "mystery_tool", arguments := "\x7b\x7d" } ],
            last_error := none }
        , { id := "run_w5", thread_id := "th_w5", status := "completed",
            required_action := none, last_error := none } ]
        { id := "run_w5", thread_id := "th_w5", status := "queued",
          required_action := none, last_error := none } [] =
      some
        ([ [ { tool_call_id := "call_a", output := weatherOutput }
           , { tool_call_id := "call_b",
               output := "Tool function executed successfully with dummy output." } ] ],
         { id := "run_w5", thread_id := "th_w5", status := "completed",
           required_action := none, last_error := none }) := by
  have h := ((chat_tool_outputs_batching "10:00:00 AM").2.2.1
    { id := "run_w5", thread_id := "th_w5", status := "queued",
      required_action := none, last_error := none }
    { id := "run_w5", thread_id := "th_w5", status := "requires_action",
      required_action := some
        [ { id := "call_a", name := "get_current_weather", arguments := "\x7b\x7d" }
        , { id := "call_b", name := "mystery_tool", arguments := "\x7b\x7d" } ],
      last_error := none }
    { id := "run_w5", thread_id := "th_w5", status := "completed",
      required_action := none, last_error := none }
    { id := "call_a", name := "get_current_weather", arguments := "\x7b\x7d" }
    { id := "call_b", name := "mystery_tool", arguments := "\x7b\x7d" }
    rfl rfl rfl rfl).1
  rw [h]
  rfl

/-- C7: a new-thread attempt by a trial user holding ten threads, in a state
that reaches the limit check (authenticated, no live thread, not loading,
trial days not exhausted), stops with the thread-limit error message and
never issues the POST to `/api/new-thread`, so no thread is created and the
thread count is untouched. -/
theorem newThread_trial_limit (s : ClientState)
    (hauth : s.isAuthenticated = true) (hth : s.threadId = none)
    (hload : s.chatLoading = false) (hplan : s.userPlan = some "trial")
    (hdays : ∀ d, s.trialDaysRemaining = some d → 0 < d)
    (hcount : s.threadCount = 10) :
    createNewThread s =
      .limitError "You have reached your thread limit of 10. Please upgrade your plan." ∧
    createNewThread s ≠ .sendRequest := by
  have hexh : trialExhausted s.trialDaysRemaining = false := by
    cases htd : s.trialDaysRemaining with
    | none => rfl
    | some d =>
      have := hdays d htd
      simp [trialExhausted]
      omega
  have h : createNewThread s =
      .limitError "You have reached your thread limit of 10. Please upgrade your plan." := by
    simp [createNewThread, hauth, hth, hload, hplan, hexh, hcount]
  exact ⟨h, by rw [h]; intro hc; cases hc⟩

/-- Witness for C7: the concrete client state of an authenticated trial user
with three trial days left and ten threads. -/
theorem newThread_trial_limit_witness :
    createNewThread
        { isAuthenticated := true, threadId := none, chatLoading := false,
          userPlan := some "trial", trialDaysRemaining := some 3, threadCount := 10 } =
      .limitError "You have reached your thread limit of 10. Please upgrade your plan." :=
  (newThread_trial_limit
    { isAuthenticated := true, threadId := none, chatLoading := false,
      userPlan := some "trial", trialDaysRemaining := some 3, threadCount := 10 }
    rfl rfl rfl rfl (by intro d hd; cases hd; decide) rfl).1

/-- The user record of the C9 failing input: a trial user with ten threads. -/
def c9User : UserRec :=
  { auth0Id := "auth0|c9", planStatus := "trial", trialEndsAt := some 1700000000000,
    stripeCustomerId := none, stripeSubscriptionId := none, threadCount := 10 }

/-- C9: the `/api/user-status` response body carries only `planStatus` and
`trialEndsAt` — `threadCount` is absent, even for a user whose record holds
`threadCount = 10`, although the client reads `data.threadCount` from this
very response. -/
theorem userStatus_omits_threadCount :
    (userStatusBody c9User).map Prod.fst = ["planStatus", "trialEndsAt"] ∧
    (userStatusBody c9User).find? (fun kv => decide (kv.fst = "threadCount")) = none ∧
    c9User.threadCount = 10 := by
  refine ⟨rfl, ?_, rfl⟩
  rfl

end BrandNew
